import Mathlib

/-!
Verification development for the ksck consistency-checking tool
(distributed checksum verification engine).

The repository source available here is the integration test
`src/kudu/tools/ksck_remote-test.cc`; the checker implementation itself
(`Ksck::ChecksumData`, `Ksck::CheckTablesConsistency`, the `Promise`
utility) is declared and exercised by that test but its body is not part
of the source tree given.  Those parts are therefore modelled from the
design specification (spec.md §3, §4.3, §4.4, §5, §9), as indicated by
the doc comments starting with "Modelled from the spec:".  The test's own
code (its caller-level retry loops and its background-writer loop
`GenerateRowWritesLoop`) is embedded directly from the source.
-/

set_option maxRecDepth 4096

/-- Modelled from the spec (§3 Replica): role of a tablet replica. -/
inductive Role
  | leader
  | follower
  | unknown
deriving DecidableEq, Repr

/-- Modelled from the spec (§3 Replica): one copy of a tablet hosted on a
serving node. -/
structure Replica where
  nodeId : String
  role : Role
deriving DecidableEq, Repr

/-- Modelled from the spec (§3 Tablet): identifier plus replica set
(key-range boundaries are irrelevant to the checks modelled here). -/
structure Tablet where
  tid : String
  replicas : List Replica
deriving DecidableEq, Repr

/-- Modelled from the spec (§3 Table): name, configured replication factor
and the tablets of the table. -/
structure Table where
  name : String
  replicationFactor : Nat
  tablets : List Tablet
deriving DecidableEq, Repr

/-- Modelled from the spec (§2/§3): point-in-time snapshot of tables,
tablets and replica locations, produced by `FetchTableAndTabletInfo`. -/
structure ClusterView where
  tables : List Table
deriving DecidableEq, Repr

/-- All tablets of a view, across all tables. -/
def allTablets (view : ClusterView) : List Tablet :=
  view.tables.flatMap (fun tb => tb.tablets)

/-- Modelled from the spec (§3/§6 ChecksumOptions): timeout duration in
nanoseconds (an `Int`, so that an already-elapsed/negative deadline is
representable), scan-concurrency bound, snapshot flag and snapshot
timestamp. -/
structure ChecksumOptions where
  timeout : Int
  scanConcurrency : Nat
  useSnapshot : Bool
  timestamp : Nat
deriving DecidableEq, Repr

/-- Modelled from the spec (§3/§9): the distinguished sentinel timestamp
meaning "use the latest timestamp observed by the coordinator's own
client at dispatch time". -/
def ChecksumOptions.kCurrentTimestamp : Nat := 0

/-- Modelled from the spec (§4.4 step 4 / §6): outcome of one
checksum-scan RPC against one replica: completed with a checksum value,
failed with a scan error, or not completed before the operation
deadline. -/
inductive ScanOutcome
  | done (checksum : Nat)
  | err
  | late
deriving DecidableEq, Repr

/-- Modelled from the spec (§3 ChecksumResult): per-tablet status. -/
inductive TabletChecksumStatus
  | ok
  | mismatch
  | error
  | timedOut
deriving DecidableEq, Repr

/-- One replica's contribution to a tablet's checksum result. -/
structure ReplicaChecksum where
  nodeId : String
  outcome : ScanOutcome
deriving DecidableEq, Repr

/-- Modelled from the spec (§3 ChecksumResult): per-tablet mapping from
replica identity to scan outcome, plus the tablet status. -/
structure TabletChecksum where
  tabletId : String
  replicas : List ReplicaChecksum
  status : TabletChecksumStatus
deriving DecidableEq, Repr

/-- The per-invocation checksum report over all tablets in scope. -/
structure ChecksumReport where
  tablets : List TabletChecksum
deriving DecidableEq, Repr

/-- Modelled from the spec (§4.4 step 5 / §7): overall outcome of a
`ChecksumData` call.  Failures carry the diagnostic detail the spec
requires (tablet ids, offending replicas and their checksum values). -/
inductive ChecksumOutcome
  | ok (report : ChecksumReport)
  | notFound (name : String)
  | timedOut (report : ChecksumReport)
  | failed (bad : List TabletChecksum)
deriving DecidableEq, Repr

/-- A full run of `ChecksumData`: its outcome together with the list of
checksum-scan RPCs it issued, as (tabletId, nodeId) pairs.  Recording the
issued RPCs makes the "no RPCs before the entry timeout check" behaviour
of the spec observable. -/
structure ChecksumRun where
  result : ChecksumOutcome
  rpcs : List (String × String)
deriving DecidableEq, Repr

/-- Modelled from the spec (§6 external interfaces): the environment a
`ChecksumData` call runs against — the client timestamp oracle and the
serving-node checksum-scan RPC.  `scan tid node tsOpt` is the outcome of
the checksum-scan RPC for tablet `tid` on node `node`, at snapshot
timestamp `ts` when `tsOpt = some ts` and over the node's current state
when `tsOpt = none`. -/
structure ChecksumEnv where
  latestObserved : Nat
  scan : String → String → Option Nat → ScanOutcome

/-- Modelled from the spec (§4.4 step 1): tables in scope under a table
filter — all tables when the filter is empty, else the named subset. -/
def scopeTables (view : ClusterView) (tableFilter : List String) : List Table :=
  if tableFilter.isEmpty then view.tables
  else view.tables.filter (fun tb => tableFilter.contains tb.name)

/-- Modelled from the spec (§4.4 step 1): tablets in scope under a tablet
filter — all tablets of the scoped tables when the filter is empty, else
the named subset. -/
def scopeTablets (tables : List Table) (tabletFilter : List String) : List Tablet :=
  let all := tables.flatMap (fun tb => tb.tablets)
  if tabletFilter.isEmpty then all
  else all.filter (fun t => tabletFilter.contains t.tid)

/-- Modelled from the spec (§4.4 step 1): scope resolution.  Empty
filters mean "all known tables/tablets in the current view"; a name
absent from the view yields the NotFound name as an error. -/
def resolveScope (view : ClusterView) (tableFilter tabletFilter : List String) :
    Except String (List Tablet) :=
  match tableFilter.find? (fun n => !view.tables.any (fun tb => tb.name == n)) with
  | some n => Except.error n
  | none =>
    match tabletFilter.find?
        (fun i => !((scopeTables view tableFilter).flatMap (fun tb => tb.tablets)).any
          (fun t => t.tid == i)) with
    | some i => Except.error i
    | none => Except.ok (scopeTablets (scopeTables view tableFilter) tabletFilter)

/-- Modelled from the spec (§4.4 step 2): the snapshot timestamp fixed
for the whole operation — the caller-supplied value, or the latest
client-observed timestamp when the sentinel is given. -/
def resolveTimestamp (opts : ChecksumOptions) (latestObserved : Nat) : Nat :=
  if opts.timestamp = ChecksumOptions.kCurrentTimestamp then latestObserved
  else opts.timestamp

/-- The snapshot timestamp carried by every checksum-scan RPC of the
operation: `some ts` when snapshotting, `none` otherwise (§4.4 step 2). -/
def checksumTimestampOpt (opts : ChecksumOptions) (env : ChecksumEnv) : Option Nat :=
  if opts.useSnapshot then some (resolveTimestamp opts env.latestObserved) else none

/-- Modelled from the spec (§4.4 step 4): classify one tablet from its
replica scan outcomes — a replica missing the deadline marks the tablet
TIMED_OUT, a scan error marks it ERROR, disagreeing checksums MISMATCH,
and agreement OK. -/
def statusOf (rs : List ReplicaChecksum) : TabletChecksumStatus :=
  if rs.any (fun x => x.outcome == ScanOutcome.late) then TabletChecksumStatus.timedOut
  else if rs.any (fun x => x.outcome == ScanOutcome.err) then TabletChecksumStatus.error
  else
    match rs with
    | [] => TabletChecksumStatus.ok
    | rc :: rest =>
      if rest.all (fun x => x.outcome == rc.outcome) then TabletChecksumStatus.ok
      else TabletChecksumStatus.mismatch

/-- Modelled from the spec (§4.4 steps 3–4): scan every replica of a
tablet at the fixed snapshot timestamp and aggregate. -/
def tabletChecksum (env : ChecksumEnv) (t : Tablet) (tsOpt : Option Nat) : TabletChecksum :=
  let rs := t.replicas.map (fun r => ReplicaChecksum.mk r.nodeId (env.scan t.tid r.nodeId tsOpt))
  { tabletId := t.tid, replicas := rs, status := statusOf rs }

/-- Per-tablet checksum results of the operation over the tablets in
scope (spec §4.4 steps 3–4). -/
def checksumResults (tabs : List Tablet) (opts : ChecksumOptions) (env : ChecksumEnv) :
    List TabletChecksum :=
  tabs.map (fun t => tabletChecksum env t (checksumTimestampOpt opts env))

/-- The checksum-scan RPCs of the operation: one per replica of every
tablet in scope, across the whole operation (spec §4.4 step 3). -/
def checksumRpcs (tabs : List Tablet) : List (String × String) :=
  tabs.flatMap (fun t => t.replicas.map (fun r => (t.tid, r.nodeId)))

/-- Modelled from the spec (§4.4 step 5): the verdict.  Any replica scan
missing the deadline fails the whole operation with TimedOut; the
operation succeeds only if every tablet reports OK; otherwise it fails
carrying the non-OK tablets with their per-replica checksums. -/
def checksumVerdict (results : List TabletChecksum) (sent : List (String × String)) :
    ChecksumRun :=
  if results.any (fun tc => tc.status == TabletChecksumStatus.timedOut) then
    { result := ChecksumOutcome.timedOut { tablets := results }, rpcs := sent }
  else if results.all (fun tc => tc.status == TabletChecksumStatus.ok) then
    { result := ChecksumOutcome.ok { tablets := results }, rpcs := sent }
  else
    { result := ChecksumOutcome.failed
        (results.filter (fun tc => tc.status != TabletChecksumStatus.ok)),
      rpcs := sent }

/-- Modelled from the spec (§4.4): the checksum protocol.  A zero or
already-elapsed timeout fails with TimedOut at entry, before any RPC is
issued; otherwise the scope is resolved (NotFound on an absent name), a
single snapshot timestamp is fixed, every replica of every tablet in
scope is scanned, and the verdict is taken. -/
def ChecksumData (view : ClusterView) (tableFilter tabletFilter : List String)
    (opts : ChecksumOptions) (env : ChecksumEnv) : ChecksumRun :=
  if opts.timeout ≤ 0 then
    { result := ChecksumOutcome.timedOut { tablets := [] }, rpcs := [] }
  else
    match resolveScope view tableFilter tabletFilter with
    | Except.error n => { result := ChecksumOutcome.notFound n, rpcs := [] }
    | Except.ok tabs => checksumVerdict (checksumResults tabs opts env) (checksumRpcs tabs)

/-- A row write carrying the logical timestamp assigned to it by the
cluster (spec §4.4 step 2 rationale: writes are ordered by timestamps
observed by clients). -/
structure WriteOp where
  wts : Nat
  row : Nat
deriving DecidableEq, Repr

/-- Modelled from the spec (§1/§6 external collaborators): the
replicated data of the cluster — for each tablet id the log of committed
row writes, shared by all replicas of the tablet (the storage and
replication layer is an external collaborator assumed correct). -/
structure ClusterData where
  logs : List (String × List WriteOp)
deriving DecidableEq, Repr

/-- The committed log of one tablet. -/
def tabletLog (d : ClusterData) (tid : String) : List WriteOp :=
  match d.logs.find? (fun p => p.1 == tid) with
  | some p => p.2
  | none => []

/-- Rows of a log visible at snapshot timestamp `ts`: exactly the writes
whose timestamp is at most `ts`. -/
def visibleRows (log : List WriteOp) (ts : Nat) : List Nat :=
  (log.filter (fun op => op.wts ≤ ts)).map (fun op => op.row)

/-- Rows of a log with no snapshot bound: every committed write. -/
def allRows (log : List WriteOp) : List Nat :=
  log.map (fun op => op.row)

/-- A deterministic 64-bit checksum over a list of rows (the serving
node's ChecksumScan RPC returns a uint64; spec §6). -/
def checksumOf (rows : List Nat) : Nat :=
  rows.foldl (fun acc r => (acc * 1099511628211 + r + 1) % 2 ^ 64) 0

/-- Modelled from the spec (§6 serving-node RPC): the environment induced
by a correctly replicated cluster state `d` — a snapshot scan checksums
the rows visible at the given timestamp, a non-snapshot scan checksums
the node's current rows, and the client oracle reports `latest` as the
latest observed timestamp. -/
def dataEnv (d : ClusterData) (latest : Nat) : ChecksumEnv :=
  { latestObserved := latest
    scan := fun tid _node tsOpt =>
      match tsOpt with
      | some ts => ScanOutcome.done (checksumOf (visibleRows (tabletLog d tid) ts))
      | none => ScanOutcome.done (checksumOf (allRows (tabletLog d tid))) }

/-- Modelled from the spec (§4.3): per-tablet verdict of the consistency
check — passing, a retryable inconsistency (election in progress or a
transient replica-count deviation, spec §3), or a hard inconsistency. -/
inductive TabletCheckResult
  | ok (tid : String)
  | retryable (tid : String)
  | hard (tid : String)
deriving DecidableEq, Repr

/-- Modelled from the spec (§4.3 check (b)): the environment of the
consistency check — for each tablet, the replica node identities reported
by querying each node directly. -/
structure ConsistencyEnv where
  directReplicas : String → List String

/-- Number of replicas of a tablet reporting role LEADER. -/
def leaderCount (t : Tablet) : Nat :=
  (t.replicas.filter (fun r => r.role == Role.leader)).length

/-- Set equality of two node-identity lists. -/
def sameMembers (xs ys : List String) : Bool :=
  xs.all (fun x => ys.contains x) && ys.all (fun y => xs.contains y)

/-- Modelled from the spec (§4.3): the per-tablet consistency check.
Zero leaders is an election in progress (retryable); more than one leader
is a hard inconsistency; a membership mismatch between the metadata
authority and the nodes is stale metadata (hard); a replica count
differing from the configured replication factor is a transient deviation
(retryable, spec §3). -/
def checkTablet (env : ConsistencyEnv) (rf : Nat) (t : Tablet) : TabletCheckResult :=
  if leaderCount t = 0 then TabletCheckResult.retryable t.tid
  else if 1 < leaderCount t then TabletCheckResult.hard t.tid
  else if !sameMembers (t.replicas.map (fun r => r.nodeId)) (env.directReplicas t.tid) then
    TabletCheckResult.hard t.tid
  else if t.replicas.length ≠ rf then TabletCheckResult.retryable t.tid
  else TabletCheckResult.ok t.tid

/-- Whether a per-tablet check passed. -/
def isOkResult : TabletCheckResult → Bool
  | TabletCheckResult.ok _ => true
  | _ => false

/-- Overall verdict of `CheckTablesConsistency` (spec §4.3/§7): OK or
Inconsistent carrying the per-tablet details. -/
inductive ConsistencyResult
  | ok
  | inconsistent (details : List TabletCheckResult)
deriving DecidableEq, Repr

/-- Modelled from the spec (§4.3): one read-only pass over the fetched
view, checking every tablet of every table once, with no internal retry
or backoff. -/
def CheckTablesConsistency (env : ConsistencyEnv) (view : ClusterView) : ConsistencyResult :=
  let results := view.tables.flatMap
    (fun tb => tb.tablets.map (fun t => checkTablet env tb.replicationFactor t))
  if results.all isOkResult then ConsistencyResult.ok
  else ConsistencyResult.inconsistent (results.filter (fun r => !isOkResult r))

/-- State of the checksum-scan dispatcher (spec §4.4 step 3 / §5): scans
not yet started, scans currently in flight, and completed scans, each a
(tabletId, nodeId) pair. -/
structure DispatchState where
  pending : List (String × String)
  inflight : List (String × String)
  done : List (String × String)
deriving DecidableEq, Repr

/-- Initial dispatcher state: every scan of the operation pending. -/
def initDispatch (scans : List (String × String)) : DispatchState :=
  { pending := scans, inflight := [], done := [] }

/-- Modelled from the spec (§4.4 step 3, §5): one step of the
scan dispatcher.  A scan may start only while fewer than `n` scans are in
flight — the global semaphore shared across the whole operation — and any
in-flight scan may finish at any time. -/
inductive DispatchStep (n : Nat) : DispatchState → DispatchState → Prop
  | start (a : String × String) (rest : List (String × String)) (s : DispatchState)
      (hcap : s.inflight.length < n) (hp : s.pending = a :: rest) :
      DispatchStep n s { pending := rest, inflight := a :: s.inflight, done := s.done }
  | finish (a : String × String) (l1 l2 : List (String × String)) (s : DispatchState)
      (hin : s.inflight = l1 ++ a :: l2) :
      DispatchStep n s { pending := s.pending, inflight := l1 ++ l2, done := a :: s.done }

/-- Reachability of dispatcher states under `DispatchStep`. -/
inductive DispatchReach (n : Nat) : DispatchState → DispatchState → Prop
  | refl (s : DispatchState) : DispatchReach n s s
  | step (s t u : DispatchState) :
      DispatchReach n s t → DispatchStep n t u → DispatchReach n s u

/-- Embedded from the source (ksck_remote-test.cc, TestTableConsistency
lines 174–181): the caller-level retry loop — on each attempt sleep
`sleepMs`, re-fetch the view (`fetch i` is the view fetched on attempt
`i`), run the check once, and stop on OK or after the last attempt.
Returns the final status together with the total milliseconds slept. -/
def retryLoopAux (env : ConsistencyEnv) (fetch : Nat → ClusterView) (sleepMs : Nat) :
    Nat → Nat → ConsistencyResult × Nat
  | _, 0 => (ConsistencyResult.ok, 0)
  | i, rem + 1 =>
    if CheckTablesConsistency env (fetch i) = ConsistencyResult.ok then
      (CheckTablesConsistency env (fetch i), sleepMs)
    else if rem = 0 then (CheckTablesConsistency env (fetch i), sleepMs)
    else ((retryLoopAux env fetch sleepMs (i + 1) rem).1,
      sleepMs + (retryLoopAux env fetch sleepMs (i + 1) rem).2)

/-- Embedded from the source (ksck_remote-test.cc lines 174–181): up to
10 attempts separated by 700 ms sleeps, attempts numbered from 1. -/
def testConsistencyRetryLoop (env : ConsistencyEnv) (fetch : Nat → ClusterView) :
    ConsistencyResult × Nat :=
  retryLoopAux env fetch 700 1 10

/-- Status of a client-library call in the background writer
(ksck_remote-test.cc uses kudu's Status; only OK-ness and identity of the
first failure matter to the loop). -/
inductive WStatus
  | ok
  | error (msg : String)
deriving DecidableEq, Repr

/-- Modelled from the spec (§9): the single-assignment result promise —
a later `Set` never overwrites an earlier one, so `Get` observes the
first status set. -/
def promiseSet (p : Option WStatus) (s : WStatus) : Option WStatus :=
  match p with
  | none => some s
  | some s0 => some s0

/-- The source pattern `if (!status.ok()) promise->Set(status);`
(ksck_remote-test.cc lines 93–95, 99–101, 107–109, 111–113). -/
def setIfNotOk (p : Option WStatus) (s : WStatus) : Option WStatus :=
  if s = WStatus.ok then p else promiseSet p s

/-- Embedded from the source (ksck_remote-test.cc GenerateRowWritesLoop,
lines 87–117): OpenTable, then SetFlushMode, then one (Apply, Flush) pair
per loop iteration until the continue flag drops (the iterations are
given as the list `steps` of (Apply, Flush) status pairs), each failure
setting the promise without leaving the loop, and finally
`promise->Set(Status::OK())`.  Returns the promise contents at the end. -/
def generateRowWritesLoop (openSt flushModeSt : WStatus)
    (steps : List (WStatus × WStatus)) : Option WStatus :=
  promiseSet
    (steps.foldl (fun p st => setIfNotOk (setIfNotOk p st.1) st.2)
      (setIfNotOk (setIfNotOk none openSt) flushModeSt))
    WStatus.ok

/-- The first non-OK status of a list, or OK when every status is OK. -/
def firstNotOk : List WStatus → WStatus
  | [] => WStatus.ok
  | s :: rest => if s = WStatus.ok then firstNotOk rest else s

/-- The statuses produced by one run of the writer loop, in program
order: OpenTable, SetFlushMode, then Apply and Flush of each iteration. -/
def loopStatusSequence (openSt flushModeSt : WStatus)
    (steps : List (WStatus × WStatus)) : List WStatus :=
  openSt :: flushModeSt :: steps.flatMap (fun st => [st.1, st.2])

lemma checksumVerdict_ok_iff (results : List TabletChecksum) (sent : List (String × String)) :
    (∃ rep, (checksumVerdict results sent).result = ChecksumOutcome.ok rep) ↔
      ∀ tc ∈ results, tc.status = TabletChecksumStatus.ok := by
  unfold checksumVerdict
  by_cases hto : results.any (fun tc => tc.status == TabletChecksumStatus.timedOut)
  · rw [if_pos hto]
    simp only [List.any_eq_true, beq_iff_eq] at hto
    obtain ⟨tc, htc, hst⟩ := hto
    constructor
    · rintro ⟨rep, h⟩
      exact absurd h (by simp)
    · intro hall
      have := hall tc htc
      rw [hst] at this
      cases this
  · rw [if_neg hto]
    by_cases hall : results.all (fun tc => tc.status == TabletChecksumStatus.ok)
    · rw [if_pos hall]
      simp only [List.all_eq_true, beq_iff_eq] at hall
      exact ⟨fun _ => hall, fun _ => ⟨{ tablets := results }, rfl⟩⟩
    · rw [if_neg hall]
      simp only [List.all_eq_true, beq_iff_eq] at hall
      constructor
      · rintro ⟨rep, h⟩
        exact absurd h (by simp)
      · intro h
        exact absurd h hall

lemma checksumVerdict_failed (results : List TabletChecksum) (sent : List (String × String))
    (bad : List TabletChecksum)
    (h : (checksumVerdict results sent).result = ChecksumOutcome.failed bad) :
    bad = results.filter (fun tc => tc.status != TabletChecksumStatus.ok) ∧ bad ≠ [] := by
  unfold checksumVerdict at h
  by_cases hto : results.any (fun tc => tc.status == TabletChecksumStatus.timedOut)
  · rw [if_pos hto] at h
    exact absurd h (by simp)
  · rw [if_neg hto] at h
    by_cases hall : results.all (fun tc => tc.status == TabletChecksumStatus.ok)
    · rw [if_pos hall] at h
      exact absurd h (by simp)
    · rw [if_neg hall] at h
      simp only [ChecksumOutcome.failed.injEq] at h
      subst h
      refine ⟨rfl, ?_⟩
      simp only [List.all_eq_true, beq_iff_eq, not_forall] at hall
      obtain ⟨tc, htc, hne⟩ := hall
      have hmem : tc ∈ results.filter (fun tc => tc.status != TabletChecksumStatus.ok) := by
        rw [List.mem_filter]
        exact ⟨htc, by simpa using hne⟩
      exact List.ne_nil_of_mem hmem

lemma checksumVerdict_timedOut_iff (results : List TabletChecksum)
    (sent : List (String × String)) :
    (∃ rep, (checksumVerdict results sent).result = ChecksumOutcome.timedOut rep) ↔
      ∃ tc ∈ results, tc.status = TabletChecksumStatus.timedOut := by
  unfold checksumVerdict
  by_cases hto : results.any (fun tc => tc.status == TabletChecksumStatus.timedOut)
  · rw [if_pos hto]
    simp only [List.any_eq_true, beq_iff_eq] at hto
    exact ⟨fun _ => hto, fun _ => ⟨{ tablets := results }, rfl⟩⟩
  · rw [if_neg hto]
    simp only [List.any_eq_true, beq_iff_eq] at hto
    by_cases hall : results.all (fun tc => tc.status == TabletChecksumStatus.ok)
    · rw [if_pos hall]
      constructor
      · rintro ⟨rep, h⟩
        exact absurd h (by simp)
      · intro h
        exact absurd h hto
    · rw [if_neg hall]
      constructor
      · rintro ⟨rep, h⟩
        exact absurd h (by simp)
      · intro h
        exact absurd h hto

lemma checksumData_of_scope (view : ClusterView) (tf tbf : List String)
    (opts : ChecksumOptions) (env : ChecksumEnv) (tabs : List Tablet)
    (ht : 0 < opts.timeout) (hs : resolveScope view tf tbf = Except.ok tabs) :
    ChecksumData view tf tbf opts env =
      checksumVerdict (checksumResults tabs opts env) (checksumRpcs tabs) := by
  unfold ChecksumData
  rw [if_neg (by omega), hs]

/-- C1: a `ChecksumData` call whose timeout is zero or already elapsed
fails with TimedOut on the very first call, at entry, before issuing any
checksum-scan RPCs, regardless of the filters, the snapshot flag and the
cluster contents. -/
theorem checksumData_zero_timeout (view : ClusterView) (tf tbf : List String)
    (opts : ChecksumOptions) (env : ChecksumEnv) (h : opts.timeout ≤ 0) :
    (ChecksumData view tf tbf opts env).result = ChecksumOutcome.timedOut { tablets := [] } ∧
    (ChecksumData view tf tbf opts env).rpcs = [] := by
  unfold ChecksumData
  rw [if_pos h]
  exact ⟨rfl, rfl⟩

/-- A concrete cluster view used by concrete instantiations: the test's
three-tablet, replication-factor-3 table. -/
def wView : ClusterView :=
  { tables := [
      { name := "ksck-test-table"
        replicationFactor := 3
        tablets := [
          { tid := "tablet-1"
            replicas := [
              { nodeId := "ts-1", role := Role.leader },
              { nodeId := "ts-2", role := Role.follower },
              { nodeId := "ts-3", role := Role.follower }] }] }] }

/-- A concrete checksum environment where every scan completes with the
same value. -/
def wEnv : ChecksumEnv :=
  { latestObserved := 5, scan := fun _ _ _ => ScanOutcome.done 7 }

/-- The test's zero-timeout options
(ChecksumOptions(MonoDelta::FromNanoseconds(0), 16, false, 0)). -/
def wOptsZero : ChecksumOptions :=
  { timeout := 0, scanConcurrency := 16, useSnapshot := false, timestamp := 0 }

theorem checksumData_zero_timeout_witness :
    (ChecksumData wView [] [] wOptsZero wEnv).result =
        ChecksumOutcome.timedOut { tablets := [] } ∧
    (ChecksumData wView [] [] wOptsZero wEnv).rpcs = [] :=
  checksumData_zero_timeout wView [] [] wOptsZero wEnv (by decide)

lemma checksumData_congr_timestampOpt (view : ClusterView) (tf tbf : List String)
    (o1 o2 : ChecksumOptions) (env : ChecksumEnv)
    (hto : o1.timeout = o2.timeout)
    (hts : checksumTimestampOpt o1 env = checksumTimestampOpt o2 env) :
    ChecksumData view tf tbf o1 env = ChecksumData view tf tbf o2 env := by
  unfold ChecksumData checksumResults
  rw [hto]
  simp only [hts]

/-- C3: `ChecksumData` called with the sentinel timestamp
`ChecksumOptions.kCurrentTimestamp` behaves identically — same verdict,
same per-tablet checksum results, same issued RPCs — to `ChecksumData`
called with the coordinator client's latest observed timestamp at
dispatch time. -/
theorem checksumData_current_sentinel_eq (view : ClusterView) (tf tbf : List String)
    (opts : ChecksumOptions) (env : ChecksumEnv) :
    ChecksumData view tf tbf { opts with timestamp := ChecksumOptions.kCurrentTimestamp } env =
    ChecksumData view tf tbf { opts with timestamp := env.latestObserved } env := by
  apply checksumData_congr_timestampOpt
  · rfl
  · unfold checksumTimestampOpt resolveTimestamp
    by_cases h : env.latestObserved = ChecksumOptions.kCurrentTimestamp
    · simp [h]
    · simp [h]

lemma setFold_some (s : WStatus) (l : List WStatus) :
    l.foldl setIfNotOk (some s) = some s := by
  induction l with
  | nil => rfl
  | cons x xs ih =>
    have h : setIfNotOk (some s) x = some s := by
      unfold setIfNotOk promiseSet
      split <;> rfl
    rw [List.foldl_cons, h]
    exact ih

lemma setFold_none (l : List WStatus) :
    l.foldl setIfNotOk none =
      if firstNotOk l = WStatus.ok then none else some (firstNotOk l) := by
  induction l with
  | nil => simp [firstNotOk]
  | cons x xs ih =>
    by_cases hx : x = WStatus.ok
    · subst hx
      rw [List.foldl_cons]
      have h1 : setIfNotOk none WStatus.ok = none := by unfold setIfNotOk; simp
      rw [h1, ih]
      have h2 : firstNotOk (WStatus.ok :: xs) = firstNotOk xs := rfl
      rw [h2]
    · rw [List.foldl_cons]
      have h1 : setIfNotOk none x = some x := by
        unfold setIfNotOk promiseSet
        rw [if_neg hx]
      have h2 : firstNotOk (x :: xs) = x := by
        unfold firstNotOk; rw [if_neg hx]
      rw [h1, h2, setFold_some, if_neg hx]

lemma pairFold_eq_flatFold (steps : List (WStatus × WStatus)) (p : Option WStatus) :
    steps.foldl (fun p st => setIfNotOk (setIfNotOk p st.1) st.2) p =
      (steps.flatMap (fun st => [st.1, st.2])).foldl setIfNotOk p := by
  induction steps generalizing p with
  | nil => rfl
  | cons st rest ih =>
    rw [List.flatMap_cons, List.foldl_append, List.foldl_cons]
    exact ih _

/-- C10: in `GenerateRowWritesLoop` every failing step (OpenTable,
SetFlushMode, Apply, Flush) sets the single-assignment result promise but
does not exit the loop; writing continues through every iteration and
`Set(Status::OK())` is attempted at the end, so the promise always ends
up set, and the status it holds is the first status set: the first error
of the run if any step ever failed, and OK only if every step
succeeded. -/
theorem generateRowWritesLoop_first_error (openSt flushModeSt : WStatus)
    (steps : List (WStatus × WStatus)) :
    generateRowWritesLoop openSt flushModeSt steps =
      some (firstNotOk (loopStatusSequence openSt flushModeSt steps)) := by
  have key : ∀ l : List WStatus,
      promiseSet (l.foldl setIfNotOk none) WStatus.ok = some (firstNotOk l) := by
    intro l
    rw [setFold_none]
    by_cases h : firstNotOk l = WStatus.ok
    · rw [if_pos h, h]; rfl
    · rw [if_neg h]; rfl
  have hshape : generateRowWritesLoop openSt flushModeSt steps =
      promiseSet ((loopStatusSequence openSt flushModeSt steps).foldl setIfNotOk none)
        WStatus.ok := by
    unfold generateRowWritesLoop loopStatusSequence
    rw [pairFold_eq_flatFold, List.foldl_cons, List.foldl_cons]
  rw [hshape, key]

/-- C4: with a positive timeout and a resolvable scope, `ChecksumData`
succeeds if and only if every tablet in scope has per-tablet status OK;
a failure verdict carries exactly the non-OK tablets, each with its id,
its replicas and their checksum values; and the call ends in the TimedOut
verdict exactly when some tablet's scan missed the deadline. -/
theorem checksumData_verdict (view : ClusterView) (tf tbf : List String)
    (opts : ChecksumOptions) (env : ChecksumEnv) (tabs : List Tablet)
    (ht : 0 < opts.timeout) (hs : resolveScope view tf tbf = Except.ok tabs) :
    ((∃ rep, (ChecksumData view tf tbf opts env).result = ChecksumOutcome.ok rep) ↔
      ∀ tc ∈ checksumResults tabs opts env, tc.status = TabletChecksumStatus.ok) ∧
    (∀ bad, (ChecksumData view tf tbf opts env).result = ChecksumOutcome.failed bad →
      bad = (checksumResults tabs opts env).filter
          (fun tc => tc.status != TabletChecksumStatus.ok) ∧ bad ≠ []) ∧
    ((∃ rep, (ChecksumData view tf tbf opts env).result = ChecksumOutcome.timedOut rep) ↔
      ∃ tc ∈ checksumResults tabs opts env, tc.status = TabletChecksumStatus.timedOut) := by
  rw [checksumData_of_scope view tf tbf opts env tabs ht hs]
  exact ⟨checksumVerdict_ok_iff _ _,
    fun bad h => checksumVerdict_failed _ _ bad h,
    checksumVerdict_timedOut_iff _ _⟩

/-- The test's regular checksum options
(ChecksumOptions(MonoDelta::FromSeconds(1), 16, false, 0)). -/
def wOptsOne : ChecksumOptions :=
  { timeout := 1000000000, scanConcurrency := 16, useSnapshot := false, timestamp := 0 }

theorem checksumData_verdict_witness :
    ((∃ rep, (ChecksumData wView [] [] wOptsOne wEnv).result = ChecksumOutcome.ok rep) ↔
      ∀ tc ∈ checksumResults (allTablets wView) wOptsOne wEnv,
        tc.status = TabletChecksumStatus.ok) ∧
    (∀ bad, (ChecksumData wView [] [] wOptsOne wEnv).result = ChecksumOutcome.failed bad →
      bad = (checksumResults (allTablets wView) wOptsOne wEnv).filter
          (fun tc => tc.status != TabletChecksumStatus.ok) ∧ bad ≠ []) ∧
    ((∃ rep, (ChecksumData wView [] [] wOptsOne wEnv).result = ChecksumOutcome.timedOut rep) ↔
      ∃ tc ∈ checksumResults (allTablets wView) wOptsOne wEnv,
        tc.status = TabletChecksumStatus.timedOut) :=
  checksumData_verdict wView [] [] wOptsOne wEnv (allTablets wView) (by decide) (by rfl)

lemma mem_scopeTables (view : ClusterView) (tf : List String) (tb : Table) :
    tb ∈ scopeTables view tf ↔ tb ∈ view.tables ∧ (tf = [] ∨ tb.name ∈ tf) := by
  unfold scopeTables
  by_cases h : tf.isEmpty
  · rw [if_pos h, List.isEmpty_iff.mp h]
    simp
  · rw [if_neg h]
    have hne : tf ≠ [] := fun hh => h (by rw [hh]; rfl)
    simp [List.mem_filter, List.elem_iff, hne]

lemma mem_scopeTablets (tables : List Table) (tbf : List String) (t : Tablet) :
    t ∈ scopeTablets tables tbf ↔
      (∃ tb ∈ tables, t ∈ tb.tablets) ∧ (tbf = [] ∨ t.tid ∈ tbf) := by
  unfold scopeTablets
  by_cases h : tbf.isEmpty
  · rw [if_pos h, List.isEmpty_iff.mp h]
    simp [List.mem_flatMap]
  · rw [if_neg h]
    have hne : tbf ≠ [] := fun hh => h (by rw [hh]; rfl)
    simp [List.mem_filter, List.mem_flatMap, List.elem_iff, hne]

lemma resolveScope_ok_mem (view : ClusterView) (tf tbf : List String) (tabs : List Tablet)
    (hs : resolveScope view tf tbf = Except.ok tabs) (t : Tablet) :
    t ∈ tabs ↔
      (∃ tb ∈ view.tables, t ∈ tb.tablets ∧ (tf = [] ∨ tb.name ∈ tf)) ∧
      (tbf = [] ∨ t.tid ∈ tbf) := by
  unfold resolveScope at hs
  cases h1 : tf.find? (fun n => !view.tables.any (fun tb => tb.name == n)) with
  | some n => rw [h1] at hs; cases hs
  | none =>
    rw [h1] at hs
    cases h2 : tbf.find? (fun i =>
        !((scopeTables view tf).flatMap (fun tb => tb.tablets)).any (fun t => t.tid == i)) with
    | some i => rw [h2] at hs; cases hs
    | none =>
      rw [h2] at hs
      have htabs : tabs = scopeTablets (scopeTables view tf) tbf := by
        cases hs; rfl
      subst htabs
      rw [mem_scopeTablets]
      constructor
      · rintro ⟨⟨tb, htb, hmem⟩, hf⟩
        exact ⟨⟨tb, (mem_scopeTables view tf tb).mp htb |>.1,
          hmem, (mem_scopeTables view tf tb).mp htb |>.2⟩, hf⟩
      · rintro ⟨⟨tb, htb, hmem, hname⟩, hf⟩
        exact ⟨⟨tb, (mem_scopeTables view tf tb).mpr ⟨htb, hname⟩, hmem⟩, hf⟩

lemma resolveScope_table_notFound (view : ClusterView) (tf tbf : List String) (n : String)
    (hn : n ∈ tf) (habs : ∀ tb ∈ view.tables, tb.name ≠ n) :
    ∃ m, resolveScope view tf tbf = Except.error m := by
  unfold resolveScope
  cases h1 : tf.find? (fun n => !view.tables.any (fun tb => tb.name == n)) with
  | some m => exact ⟨m, rfl⟩
  | none =>
    exfalso
    have := List.find?_eq_none.mp h1 n hn
    simp only [Bool.not_eq_true', List.any_eq_true, beq_iff_eq, Bool.not_eq_false] at this
    obtain ⟨tb, htb, hname⟩ := this
    exact habs tb htb hname

lemma resolveScope_tablet_notFound (view : ClusterView) (tf tbf : List String) (n : String)
    (hn : n ∈ tbf) (habs : ∀ t ∈ allTablets view, t.tid ≠ n) :
    ∃ m, resolveScope view tf tbf = Except.error m := by
  unfold resolveScope
  cases h1 : tf.find? (fun n => !view.tables.any (fun tb => tb.name == n)) with
  | some m => exact ⟨m, rfl⟩
  | none =>
    cases h2 : tbf.find? (fun i =>
        !((scopeTables view tf).flatMap (fun tb => tb.tablets)).any (fun t => t.tid == i)) with
    | some m => exact ⟨m, rfl⟩
    | none =>
      exfalso
      have := List.find?_eq_none.mp h2 n hn
      simp only [Bool.not_eq_true', List.any_eq_true, beq_iff_eq, Bool.not_eq_false,
        List.mem_flatMap] at this
      obtain ⟨t, ⟨tb, htb, hmem⟩, htid⟩ := this
      have htb2 : tb ∈ view.tables := ((mem_scopeTables view tf tb).mp htb).1
      have : t ∈ allTablets view := by
        unfold allTablets
        rw [List.mem_flatMap]
        exact ⟨tb, htb2, hmem⟩
      exact habs t this htid

/-- C7: empty table and tablet filters select every known tablet of the
view; a resolved non-empty filter restricts scope to exactly the named
subset; and (with a live timeout) naming a table or tablet absent from
the view makes `ChecksumData` fail with NotFound. -/
theorem checksumData_scope (view : ClusterView) (tf tbf : List String)
    (opts : ChecksumOptions) (env : ChecksumEnv) (n : String) :
    resolveScope view [] [] = Except.ok (allTablets view) ∧
    (∀ tabs, resolveScope view tf tbf = Except.ok tabs → ∀ t,
      t ∈ tabs ↔
        (∃ tb ∈ view.tables, t ∈ tb.tablets ∧ (tf = [] ∨ tb.name ∈ tf)) ∧
        (tbf = [] ∨ t.tid ∈ tbf)) ∧
    (0 < opts.timeout → n ∈ tf → (∀ tb ∈ view.tables, tb.name ≠ n) →
      ∃ m, (ChecksumData view tf tbf opts env).result = ChecksumOutcome.notFound m) ∧
    (0 < opts.timeout → n ∈ tbf → (∀ t ∈ allTablets view, t.tid ≠ n) →
      ∃ m, (ChecksumData view tf tbf opts env).result = ChecksumOutcome.notFound m) := by
  refine ⟨rfl, fun tabs hs t => resolveScope_ok_mem view tf tbf tabs hs t, ?_, ?_⟩
  · intro ht hn habs
    obtain ⟨m, hm⟩ := resolveScope_table_notFound view tf tbf n hn habs
    refine ⟨m, ?_⟩
    unfold ChecksumData
    rw [if_neg (by omega), hm]
  · intro ht hn habs
    obtain ⟨m, hm⟩ := resolveScope_tablet_notFound view tf tbf n hn habs
    refine ⟨m, ?_⟩
    unfold ChecksumData
    rw [if_neg (by omega), hm]

theorem checksumData_scope_witness :
    (resolveScope wView [] [] = Except.ok (allTablets wView) ∧
      (∀ tabs, resolveScope wView ["no-such-table"] [] = Except.ok tabs → ∀ t,
        t ∈ tabs ↔
          (∃ tb ∈ wView.tables, t ∈ tb.tablets ∧
            (["no-such-table"] = [] ∨ tb.name ∈ ["no-such-table"])) ∧
          (([] : List String) = [] ∨ t.tid ∈ ([] : List String))) ∧
      (0 < wOptsOne.timeout → "no-such-table" ∈ ["no-such-table"] →
        (∀ tb ∈ wView.tables, tb.name ≠ "no-such-table") →
        ∃ m, (ChecksumData wView ["no-such-table"] [] wOptsOne wEnv).result =
          ChecksumOutcome.notFound m) ∧
      (0 < wOptsOne.timeout → "no-such-table" ∈ ([] : List String) →
        (∀ t ∈ allTablets wView, t.tid ≠ "no-such-table") →
        ∃ m, (ChecksumData wView ["no-such-table"] [] wOptsOne wEnv).result =
          ChecksumOutcome.notFound m)) ∧
    (ChecksumData wView ["no-such-table"] [] wOptsOne wEnv).result =
      ChecksumOutcome.notFound "no-such-table" := by
  constructor
  · exact checksumData_scope wView ["no-such-table"] [] wOptsOne wEnv "no-such-table"
  · rfl

lemma statusOf_const (v : Nat) (rs : List ReplicaChecksum)
    (h : ∀ rc ∈ rs, rc.outcome = ScanOutcome.done v) :
    statusOf rs = TabletChecksumStatus.ok := by
  have hlate : rs.any (fun x => x.outcome == ScanOutcome.late) = false := by
    rw [List.any_eq_false]
    intro x hx
    simp [h x hx]
  have herr : rs.any (fun x => x.outcome == ScanOutcome.err) = false := by
    rw [List.any_eq_false]
    intro x hx
    simp [h x hx]
  unfold statusOf
  rw [hlate, herr]
  simp only [Bool.false_eq_true, if_false]
  cases rs with
  | nil => rfl
  | cons rc rest =>
    show (if (rest.all fun x => x.outcome == rc.outcome) = true then TabletChecksumStatus.ok
      else TabletChecksumStatus.mismatch) = TabletChecksumStatus.ok
    have hall : (rest.all fun x => x.outcome == rc.outcome) = true := by
      rw [List.all_eq_true]
      intro x hx
      rw [h x (List.mem_cons_of_mem rc hx), h rc (List.mem_cons_self rc rest)]
      simp
    rw [if_pos hall]

lemma tabletChecksum_dataEnv_status (d : ClusterData) (l : Nat) (t : Tablet)
    (tsOpt : Option Nat) :
    (tabletChecksum (dataEnv d l) t tsOpt).status = TabletChecksumStatus.ok := by
  unfold tabletChecksum
  apply statusOf_const
    (match tsOpt with
      | some ts => checksumOf (visibleRows (tabletLog d t.tid) ts)
      | none => checksumOf (allRows (tabletLog d t.tid)))
  intro rc hrc
  rw [List.mem_map] at hrc
  obtain ⟨r, hr, hrc⟩ := hrc
  subst hrc
  cases tsOpt <;> rfl

lemma checksumVerdict_all_ok (results : List TabletChecksum) (sent : List (String × String))
    (h : ∀ tc ∈ results, tc.status = TabletChecksumStatus.ok) :
    (checksumVerdict results sent).result = ChecksumOutcome.ok { tablets := results } := by
  have hto : results.any (fun tc => tc.status == TabletChecksumStatus.timedOut) = false := by
    rw [List.any_eq_false]
    intro tc htc
    simp [h tc htc]
  have hall : results.all (fun tc => tc.status == TabletChecksumStatus.ok) = true := by
    rw [List.all_eq_true]
    intro tc htc
    simp [h tc htc]
  unfold checksumVerdict
  rw [hto, hall]
  simp only [Bool.false_eq_true, if_false, if_true]

lemma checksumResults_dataEnv_ok (tabs : List Tablet) (opts : ChecksumOptions)
    (d : ClusterData) (l : Nat) :
    ∀ tc ∈ checksumResults tabs opts (dataEnv d l), tc.status = TabletChecksumStatus.ok := by
  intro tc htc
  unfold checksumResults at htc
  rw [List.mem_map] at htc
  obtain ⟨t, htmem, hrc⟩ := htc
  subst hrc
  exact tabletChecksum_dataEnv_status d l t _

/-- C5: with `useSnapshot=false` over an unmodified cluster state `d`
with no concurrent writers, `ChecksumData` returns OK for every tablet
in scope, and re-running it against the same data yields an identical
run — same verdict and identical per-tablet checksum values — even if
the client has meanwhile observed other timestamps (`l1` vs `l2`). -/
theorem checksumData_noSnapshot_idempotent (view : ClusterView) (tf tbf : List String)
    (opts : ChecksumOptions) (d : ClusterData) (l1 l2 : Nat) (tabs : List Tablet)
    (hns : opts.useSnapshot = false) (ht : 0 < opts.timeout)
    (hs : resolveScope view tf tbf = Except.ok tabs) :
    ChecksumData view tf tbf opts (dataEnv d l1) =
      ChecksumData view tf tbf opts (dataEnv d l2) ∧
    (ChecksumData view tf tbf opts (dataEnv d l1)).result =
      ChecksumOutcome.ok { tablets := checksumResults tabs opts (dataEnv d l1) } := by
  constructor
  · rw [checksumData_of_scope view tf tbf opts (dataEnv d l1) tabs ht hs,
      checksumData_of_scope view tf tbf opts (dataEnv d l2) tabs ht hs]
    unfold checksumResults checksumTimestampOpt
    simp only [hns, Bool.false_eq_true, if_false]
    rfl
  · rw [checksumData_of_scope view tf tbf opts (dataEnv d l1) tabs ht hs]
    exact checksumVerdict_all_ok _ _ (checksumResults_dataEnv_ok tabs opts d l1)

/-- A concrete unmodified cluster state for witnesses: one tablet with
two committed writes. -/
def wData : ClusterData :=
  { logs := [("tablet-1", [{ wts := 1, row := 10 }, { wts := 2, row := 20 }])] }

theorem checksumData_noSnapshot_idempotent_witness :
    ChecksumData wView [] [] wOptsOne (dataEnv wData 3) =
      ChecksumData wView [] [] wOptsOne (dataEnv wData 4) ∧
    (ChecksumData wView [] [] wOptsOne (dataEnv wData 3)).result =
      ChecksumOutcome.ok { tablets := checksumResults (allTablets wView) wOptsOne (dataEnv wData 3) } :=
  checksumData_noSnapshot_idempotent wView [] [] wOptsOne wData 3 4 (allTablets wView)
    rfl (by decide) (by rfl)

lemma visibleRows_append_late (log extra : List WriteOp) (ts : Nat)
    (h : ∀ op ∈ extra, ts < op.wts) :
    visibleRows (log ++ extra) ts = visibleRows log ts := by
  unfold visibleRows
  rw [List.filter_append]
  have hnil : extra.filter (fun op => decide (op.wts ≤ ts)) = [] := by
    rw [List.filter_eq_nil_iff]
    intro op hop
    simp only [decide_eq_true_eq]
    have := h op hop
    omega
  rw [hnil, List.append_nil]

lemma tabletLog_not_mem (d : ClusterData) (tid : String)
    (h : ∀ p ∈ d.logs, p.1 ≠ tid) : tabletLog d tid = [] := by
  unfold tabletLog
  cases hf : d.logs.find? (fun p => p.1 == tid) with
  | none => rfl
  | some p =>
    have h1 := List.find?_some hf
    have h2 := List.mem_of_find?_eq_some hf
    rw [beq_iff_eq] at h1
    exact absurd h1 (h p h2)

/-- C2: with `useSnapshot=true` and the snapshot timestamp fixed for the
operation (explicitly or via the "current" sentinel), a concurrent
client that keeps appending writes during the call — every such write
carrying a timestamp later than the snapshot — never changes the outcome:
the run over the written-to state `d2` equals the run over the base state
`d`, and every tablet in scope reports OK (no MISMATCH). -/
theorem checksumData_snapshot_masks_writes (view : ClusterView) (tf tbf : List String)
    (opts : ChecksumOptions) (d d2 : ClusterData) (latest : Nat) (tabs : List Tablet)
    (hsnap : opts.useSnapshot = true) (ht : 0 < opts.timeout)
    (hs : resolveScope view tf tbf = Except.ok tabs)
    (hwrites : ∀ tid : String, ∃ extra : List WriteOp,
      tabletLog d2 tid = tabletLog d tid ++ extra ∧
      ∀ op ∈ extra, resolveTimestamp opts latest < op.wts) :
    ChecksumData view tf tbf opts (dataEnv d2 latest) =
      ChecksumData view tf tbf opts (dataEnv d latest) ∧
    (ChecksumData view tf tbf opts (dataEnv d2 latest)).result =
      ChecksumOutcome.ok { tablets := checksumResults tabs opts (dataEnv d latest) } := by
  have hmask : ∀ tid, visibleRows (tabletLog d2 tid) (resolveTimestamp opts latest) =
      visibleRows (tabletLog d tid) (resolveTimestamp opts latest) := by
    intro tid
    obtain ⟨extra, he, hlate⟩ := hwrites tid
    rw [he]
    exact visibleRows_append_late _ _ _ hlate
  have hts2 : checksumTimestampOpt opts (dataEnv d2 latest) =
      some (resolveTimestamp opts latest) := by
    unfold checksumTimestampOpt
    rw [hsnap]
    rfl
  have hts1 : checksumTimestampOpt opts (dataEnv d latest) =
      some (resolveTimestamp opts latest) := by
    unfold checksumTimestampOpt
    rw [hsnap]
    rfl
  have htab : ∀ t : Tablet,
      tabletChecksum (dataEnv d2 latest) t (some (resolveTimestamp opts latest)) =
      tabletChecksum (dataEnv d latest) t (some (resolveTimestamp opts latest)) := by
    intro t
    have hscan : ∀ node : String,
        (dataEnv d2 latest).scan t.tid node (some (resolveTimestamp opts latest)) =
        (dataEnv d latest).scan t.tid node (some (resolveTimestamp opts latest)) := by
      intro node
      show ScanOutcome.done
          (checksumOf (visibleRows (tabletLog d2 t.tid) (resolveTimestamp opts latest))) =
        ScanOutcome.done
          (checksumOf (visibleRows (tabletLog d t.tid) (resolveTimestamp opts latest)))
      rw [hmask t.tid]
    unfold tabletChecksum
    simp only [hscan]
  have heq : ChecksumData view tf tbf opts (dataEnv d2 latest) =
      ChecksumData view tf tbf opts (dataEnv d latest) := by
    rw [checksumData_of_scope view tf tbf opts (dataEnv d2 latest) tabs ht hs,
      checksumData_of_scope view tf tbf opts (dataEnv d latest) tabs ht hs]
    unfold checksumResults
    simp only [hts1, hts2, htab]
  refine ⟨heq, ?_⟩
  rw [heq, checksumData_of_scope view tf tbf opts (dataEnv d latest) tabs ht hs]
  exact checksumVerdict_all_ok _ _ (checksumResults_dataEnv_ok tabs opts d latest)

/-- The test's snapshot checksum options
(ChecksumOptions(MonoDelta::FromSeconds(10), 16, true, ts)). -/
def wOptsSnap : ChecksumOptions :=
  { timeout := 10000000000, scanConcurrency := 16, useSnapshot := true, timestamp := 5 }

/-- The same cluster state as `wData` after a concurrent writer appended
one more row at timestamp 10, past the snapshot timestamp 5. -/
def wData2 : ClusterData :=
  { logs := [("tablet-1",
      [{ wts := 1, row := 10 }, { wts := 2, row := 20 }, { wts := 10, row := 99 }])] }

theorem checksumData_snapshot_masks_writes_witness :
    ChecksumData wView [] [] wOptsSnap (dataEnv wData2 5) =
      ChecksumData wView [] [] wOptsSnap (dataEnv wData 5) ∧
    (ChecksumData wView [] [] wOptsSnap (dataEnv wData2 5)).result =
      ChecksumOutcome.ok
        { tablets := checksumResults (allTablets wView) wOptsSnap (dataEnv wData 5) } := by
  apply checksumData_snapshot_masks_writes wView [] [] wOptsSnap wData wData2 5
    (allTablets wView) rfl (by decide) (by rfl)
  intro tid
  by_cases h : tid = "tablet-1"
  · subst h
    exact ⟨[{ wts := 10, row := 99 }], by decide, by decide⟩
  · refine ⟨[], ?_, by simp⟩
    have e2 : tabletLog wData2 tid = [] := by
      apply tabletLog_not_mem
      intro p hp
      have hp2 : p = ("tablet-1",
          [{ wts := 1, row := 10 }, { wts := 2, row := 20 }, { wts := 10, row := 99 }]) := by
        simpa [wData2] using hp
      subst hp2
      exact fun e => h e.symm
    have e1 : tabletLog wData tid = [] := by
      apply tabletLog_not_mem
      intro p hp
      have hp2 : p = ("tablet-1", [{ wts := 1, row := 10 }, { wts := 2, row := 20 }]) := by
        simpa [wData] using hp
      subst hp2
      exact fun e => h e.symm
    rw [e1, e2]
    rfl

lemma checkTablet_ok_iff (env : ConsistencyEnv) (rf : Nat) (t : Tablet) :
    checkTablet env rf t = TabletCheckResult.ok t.tid ↔
      leaderCount t = 1 ∧ t.replicas.length = rf ∧
      sameMembers (t.replicas.map (fun r => r.nodeId)) (env.directReplicas t.tid) = true := by
  unfold checkTablet
  by_cases h0 : leaderCount t = 0
  · rw [if_pos h0]
    constructor
    · intro hk
      exact absurd hk (by simp)
    · rintro ⟨h1, -, -⟩
      exact absurd h1 (by omega)
  · rw [if_neg h0]
    by_cases h2 : 1 < leaderCount t
    · rw [if_pos h2]
      constructor
      · intro hk
        exact absurd hk (by simp)
      · rintro ⟨h1, -, -⟩
        exact absurd h1 (by omega)
    · rw [if_neg h2]
      have h1 : leaderCount t = 1 := by omega
      by_cases hm : sameMembers (t.replicas.map (fun r => r.nodeId))
          (env.directReplicas t.tid) = true
      · rw [if_neg (by simp [hm])]
        by_cases hl : t.replicas.length ≠ rf
        · rw [if_pos hl]
          constructor
          · intro hk
            exact absurd hk (by simp)
          · rintro ⟨-, hlen, -⟩
            exact absurd hlen hl
        · rw [if_neg hl]
          push_neg at hl
          simp [h1, hl, hm]
      · rw [if_pos (by simp [Bool.not_eq_true] at hm ⊢; exact hm)]
        constructor
        · intro hk
          exact absurd hk (by simp)
        · rintro ⟨-, -, hmm⟩
          exact absurd hmm hm

lemma checkTablet_isOk (env : ConsistencyEnv) (rf : Nat) (t : Tablet)
    (h : isOkResult (checkTablet env rf t) = true) :
    checkTablet env rf t = TabletCheckResult.ok t.tid := by
  unfold checkTablet at h ⊢
  by_cases h0 : leaderCount t = 0
  · rw [if_pos h0] at h
    simp [isOkResult] at h
  · rw [if_neg h0] at h ⊢
    by_cases h2 : 1 < leaderCount t
    · rw [if_pos h2] at h
      simp [isOkResult] at h
    · rw [if_neg h2] at h ⊢
      by_cases hm : (!sameMembers (t.replicas.map (fun r => r.nodeId))
          (env.directReplicas t.tid)) = true
      · rw [if_pos hm] at h
        simp [isOkResult] at h
      · rw [if_neg hm] at h ⊢
        by_cases hl : t.replicas.length ≠ rf
        · rw [if_pos hl] at h
          simp [isOkResult] at h
        · rw [if_neg hl] at h ⊢

/-- C6: the per-tablet consistency check passes exactly when the tablet
has exactly one LEADER replica, its replica count equals the table's
configured replication factor, and its membership matches the nodes'
direct reports; zero leaders is classified as a retryable inconsistency
(election in progress), more than one leader as a hard inconsistency;
and a passing `CheckTablesConsistency` run certifies exactly one leader
and a full replica count for every tablet of every table in the view. -/
theorem checkTablesConsistency_leader_rules (env : ConsistencyEnv) (view : ClusterView)
    (rf : Nat) (t : Tablet) :
    (checkTablet env rf t = TabletCheckResult.ok t.tid ↔
      leaderCount t = 1 ∧ t.replicas.length = rf ∧
      sameMembers (t.replicas.map (fun r => r.nodeId)) (env.directReplicas t.tid) = true) ∧
    (leaderCount t = 0 → checkTablet env rf t = TabletCheckResult.retryable t.tid) ∧
    (1 < leaderCount t → checkTablet env rf t = TabletCheckResult.hard t.tid) ∧
    (CheckTablesConsistency env view = ConsistencyResult.ok →
      ∀ tb ∈ view.tables, ∀ t2 ∈ tb.tablets,
        leaderCount t2 = 1 ∧ t2.replicas.length = tb.replicationFactor) := by
  refine ⟨checkTablet_ok_iff env rf t, ?_, ?_, ?_⟩
  · intro h0
    unfold checkTablet
    rw [if_pos h0]
  · intro h2
    unfold checkTablet
    rw [if_neg (by omega), if_pos h2]
  · intro hok tb htb t2 ht2
    unfold CheckTablesConsistency at hok
    by_cases hall : (view.tables.flatMap
        (fun tb => tb.tablets.map (fun t => checkTablet env tb.replicationFactor t))).all
          isOkResult = true
    · rw [List.all_eq_true] at hall
      have hmem : checkTablet env tb.replicationFactor t2 ∈ view.tables.flatMap
          (fun tb => tb.tablets.map (fun t => checkTablet env tb.replicationFactor t)) := by
        rw [List.mem_flatMap]
        exact ⟨tb, htb, List.mem_map_of_mem _ ht2⟩
      have hok2 := checkTablet_isOk env tb.replicationFactor t2 (hall _ hmem)
      have := (checkTablet_ok_iff env tb.replicationFactor t2).mp hok2
      exact ⟨this.1, this.2.1⟩
    · rw [if_neg hall] at hok
      exact absurd hok (by simp)

/-- A concrete consistency environment: the nodes directly report the
three test tablet servers for every tablet. -/
def wConsEnv : ConsistencyEnv :=
  { directReplicas := fun _ => ["ts-1", "ts-2", "ts-3"] }

/-- A tablet with no leader (election in progress). -/
def wNoLeader : Tablet :=
  { tid := "tablet-nl"
    replicas := [
      { nodeId := "ts-1", role := Role.follower },
      { nodeId := "ts-2", role := Role.follower },
      { nodeId := "ts-3", role := Role.follower }] }

/-- A tablet with two leaders (hard inconsistency). -/
def wTwoLeaders : Tablet :=
  { tid := "tablet-2l"
    replicas := [
      { nodeId := "ts-1", role := Role.leader },
      { nodeId := "ts-2", role := Role.leader },
      { nodeId := "ts-3", role := Role.follower }] }

/-- The healthy tablet of `wView`. -/
def wTablet1 : Tablet :=
  { tid := "tablet-1"
    replicas := [
      { nodeId := "ts-1", role := Role.leader },
      { nodeId := "ts-2", role := Role.follower },
      { nodeId := "ts-3", role := Role.follower }] }

theorem checkTablesConsistency_leader_rules_witness :
    checkTablet wConsEnv 3 wNoLeader = TabletCheckResult.retryable "tablet-nl" ∧
    checkTablet wConsEnv 3 wTwoLeaders = TabletCheckResult.hard "tablet-2l" ∧
    checkTablet wConsEnv 3 wTablet1 = TabletCheckResult.ok "tablet-1" := by
  refine ⟨?_, ?_, ?_⟩
  · exact (checkTablesConsistency_leader_rules wConsEnv wView 3 wNoLeader).2.1 (by decide)
  · exact (checkTablesConsistency_leader_rules wConsEnv wView 3 wTwoLeaders).2.2.1 (by decide)
  · exact (checkTablesConsistency_leader_rules wConsEnv wView 3 wTablet1).1.mpr
      ⟨by decide, by decide, by decide⟩

/-- C8: during one `ChecksumData` call, in every dispatcher state
reachable from the initial state holding all checksum-scan RPCs of the
whole operation — one shared pool across all tablets in scope, not one
per tablet — the number of scans simultaneously in flight never exceeds
`opts.scanConcurrency`. -/
theorem checksum_scan_concurrency_bound (view : ClusterView) (tf tbf : List String)
    (opts : ChecksumOptions) (env : ChecksumEnv) (s : DispatchState)
    (h : DispatchReach opts.scanConcurrency
      (initDispatch (ChecksumData view tf tbf opts env).rpcs) s) :
    s.inflight.length ≤ opts.scanConcurrency := by
  induction h with
  | refl =>
    show ([] : List (String × String)).length ≤ opts.scanConcurrency
    simp
  | step t0 u0 hr hstep ih =>
    cases hstep with
    | start a rest hcap hp =>
      show (a :: t0.inflight).length ≤ opts.scanConcurrency
      simp only [List.length_cons]
      omega
    | finish a l1 l2 hin =>
      show (l1 ++ l2).length ≤ opts.scanConcurrency
      rename_i hin2
      rw [hin2] at ih
      simp only [List.length_append, List.length_cons] at ih ⊢
      omega

theorem checksum_scan_concurrency_bound_witness :
    ({ pending := [("tablet-1", "ts-2"), ("tablet-1", "ts-3")],
       inflight := [("tablet-1", "ts-1")],
       done := [] } : DispatchState).inflight.length ≤ wOptsOne.scanConcurrency := by
  apply checksum_scan_concurrency_bound wView [] [] wOptsOne wEnv
  exact DispatchReach.step _ _ _ (DispatchReach.refl _)
    (DispatchStep.start ("tablet-1", "ts-1") [("tablet-1", "ts-2"), ("tablet-1", "ts-3")] _
      (by decide) (by rfl))

lemma retryLoopAux_first_ok (env : ConsistencyEnv) (fetch : Nat → ClusterView) (m : Nat) :
    ∀ rem i k : Nat, i ≤ k → k < i + rem →
      CheckTablesConsistency env (fetch k) = ConsistencyResult.ok →
      (∀ j, i ≤ j → j < k → CheckTablesConsistency env (fetch j) ≠ ConsistencyResult.ok) →
      retryLoopAux env fetch m i rem = (ConsistencyResult.ok, m * (k - i + 1)) := by
  intro rem
  induction rem with
  | zero =>
    intro i k h1 h2 _ _
    omega
  | succ rem ih =>
    intro i k h1 h2 hpass hfail
    unfold retryLoopAux
    by_cases hik : i = k
    · subst hik
      rw [if_pos hpass, hpass]
      simp [Nat.sub_self]
    · have hlt : i < k := by omega
      have hfails : CheckTablesConsistency env (fetch i) ≠ ConsistencyResult.ok :=
        hfail i (le_refl i) hlt
      rw [if_neg hfails]
      have hrem : rem ≠ 0 := by omega
      rw [if_neg hrem]
      rw [ih (i + 1) k (by omega) (by omega) hpass (fun j hj1 hj2 => hfail j (by omega) hj2)]
      simp only [Prod.mk.injEq]
      refine ⟨trivial, ?_⟩
      have hsub : k - (i + 1) + 1 = k - i := by omega
      rw [hsub]
      have hx : k - i + 1 = (k - i) + 1 := rfl
      rw [hx, Nat.mul_succ]
      exact Nat.add_comm m (m * (k - i))

/-- C9: the checker itself is a single pass over the fetched view;
convergence after table creation is the caller's retry loop
(ksck_remote-test.cc lines 174–181): up to 10 attempts, each preceded by
a 700 ms sleep and a fresh fetch.  If the view fetched on attempt `k`
(1 ≤ k ≤ 10) is the first consistent one, the loop returns OK having
slept exactly 700·k ms, at most 7000 ms in total. -/
theorem consistency_caller_retry (env : ConsistencyEnv) (fetch : Nat → ClusterView) (k : Nat)
    (h1 : 1 ≤ k) (h2 : k ≤ 10)
    (hpass : CheckTablesConsistency env (fetch k) = ConsistencyResult.ok)
    (hfail : ∀ j, 1 ≤ j → j < k → CheckTablesConsistency env (fetch j) ≠ ConsistencyResult.ok) :
    testConsistencyRetryLoop env fetch = (ConsistencyResult.ok, 700 * k) ∧ 700 * k ≤ 7000 := by
  constructor
  · unfold testConsistencyRetryLoop
    rw [retryLoopAux_first_ok env fetch 700 10 1 k h1 (by omega) hpass hfail]
    have hsub : k - 1 + 1 = k := by omega
    rw [hsub]
  · omega

/-- A view whose only tablet has no leader yet: the state right after
table creation, before leader election finishes. -/
def wBadView : ClusterView :=
  { tables := [
      { name := "ksck-test-table"
        replicationFactor := 3
        tablets := [wNoLeader] }] }

/-- A fetch sequence that becomes consistent on the second attempt. -/
def wFetch : Nat → ClusterView :=
  fun j => if 2 ≤ j then wView else wBadView

theorem consistency_caller_retry_witness :
    testConsistencyRetryLoop wConsEnv wFetch = (ConsistencyResult.ok, 700 * 2) ∧
    700 * 2 ≤ 7000 := by
  apply consistency_caller_retry wConsEnv wFetch 2 (by decide) (by decide) (by decide)
  intro j hj1 hj2
  have hj : j = 1 := by omega
  subst hj
  decide
